import Mathlib

/-!
Verification of the geospatial render pipeline in
`src/data/acquisition/blender.py` and of the tensor transform in
`src/data/transformation/remap.py`, as a shallow embedding in Lean 4.

Pure numeric code (`TransverseMercator`, `mapillary_to_euler`) is embedded
over the reals, with Python's runtime failure semantics (division by zero,
`math.log` domain check) made explicit through an `Except`-style result.
Stateful code (`place_camera`, `create_nodes`, `move_render_passes`) is
embedded by explicit state passing: the Blender camera and node tree become
records, and the filesystem fragments the code touches (the per-layer
staging directories and the output directory listing) become lists of
file names.
-/

open Real

/-- Python `math.radians` and numpy `deg2rad`: degree to radian conversion. -/
noncomputable def radians (x : ℝ) : ℝ := x * (Real.pi / 180)

/-- Exceptions the embedded Python code paths can raise at runtime.
`indexError` is `list(...)[0]` on an empty list; `fileExistsError` is
`Path.rename` onto an existing target (Windows semantics, matching the
repository's `C:\...` paths); `zeroDivisionError` is float division by
zero; `valueError` is `math.log` outside its domain ("math domain error");
`keyError` is a `bpy` collection subscript with a missing key, such as
`renderlayers_node.outputs[render_pass_name]` for a pass that is not an
available output; `unboundLocalError` is use of a variable no branch
assigned. -/
inductive PyErr
  | indexError
  | fileExistsError
  | zeroDivisionError
  | valueError
  | keyError
  | unboundLocalError
  deriving DecidableEq

/-- `mapillary_to_euler` from `blender.py`: `deg2rad([90, 0, -compass])`,
applied elementwise. -/
noncomputable def mapillary_to_euler (compass_orientation : ℝ) : ℝ × ℝ × ℝ :=
  (radians 90, radians 0, radians (-compass_orientation))

/-- The Blender camera state that `place_camera` mutates. -/
structure Camera where
  location : ℝ × ℝ × ℝ
  rotation_euler : ℝ × ℝ × ℝ

/-- `place_camera` from `blender.py`: overwrites the scene camera's
location with `(x, y, z + offset_altitude)` and its rotation with
`mapillary_to_euler(computed_compass_angle)`.  The source declares the
default `offset_altitude = 0.3`; call sites here pass it explicitly. -/
noncomputable def place_camera (xyz : ℝ × ℝ × ℝ) (computed_compass_angle : ℝ)
    (offset_altitude : ℝ) (cam : Camera) : Camera :=
  ⟨(xyz.1, xyz.2.1, xyz.2.2 + offset_altitude),
   mapillary_to_euler computed_compass_angle⟩

/-- C6: for every compass bearing `b` in degrees, `mapillary_to_euler b`
is `(π/2, 0, -radians b)`; in particular `mapillary_to_euler 0 = (π/2, 0, 0)`
and `mapillary_to_euler 90 = (π/2, 0, -(π/2))`. -/
theorem c6_mapillary_to_euler (b : ℝ) :
    mapillary_to_euler b = (Real.pi / 2, 0, -(radians b)) ∧
    mapillary_to_euler 0 = (Real.pi / 2, 0, 0) ∧
    mapillary_to_euler 90 = (Real.pi / 2, 0, -(Real.pi / 2)) := by
  refine ⟨?_, ?_, ?_⟩ <;>
    simp only [mapillary_to_euler, radians, Prod.mk.injEq] <;>
    refine ⟨by ring, by ring, by ring⟩

/-- C5: `place_camera` overwrites the camera pose entirely: the new
location is `(x, y, z + 0.3)` with the default offset, the new rotation is
the bearing-derived Euler triple, whatever the previous camera state was;
at altitude `10.0`, bearing `0`, projected position `(0, 0)`, the
resulting pose is position `(0, 0, 10.3)`, orientation `(π/2, 0, 0)`. -/
theorem c5_place_camera (xyz : ℝ × ℝ × ℝ) (angle : ℝ) (cam cam0 : Camera) :
    place_camera xyz angle 0.3 cam =
      ⟨(xyz.1, xyz.2.1, xyz.2.2 + 0.3), mapillary_to_euler angle⟩ ∧
    place_camera (0, 0, 10.0) 0 0.3 cam0 =
      ⟨(0, 0, 10.3), (Real.pi / 2, 0, 0)⟩ := by
  constructor
  · rfl
  · simp only [place_camera, mapillary_to_euler, radians, Camera.mk.injEq,
      Prod.mk.injEq]
    norm_num
    ring

/-- C9 counterexample: the Euler triples returned for bearings `0 + 360`
and `0` are not equal (their `rz` components differ by `2π`), so the
function is not literally periodic in its return value. -/
theorem c9_counterexample : mapillary_to_euler (0 + 360) ≠ mapillary_to_euler 0 := by
  intro h
  have h2 := congrArg (fun t : ℝ × ℝ × ℝ => t.2.2) h
  simp only [mapillary_to_euler, radians] at h2
  have hpi : Real.pi = 0 := by linarith
  exact Real.pi_ne_zero hpi

/-- C9 amended: bearings `b + 360` and `b` yield the same `rx` and `ry`,
and `rz` values that differ by exactly `2π`; the two triples therefore
describe the same rotation (equal cosine and sine on every component),
though they are distinct as numeric tuples. -/
theorem c9_amended (b : ℝ) :
    (mapillary_to_euler (b + 360)).1 = (mapillary_to_euler b).1 ∧
    (mapillary_to_euler (b + 360)).2.1 = (mapillary_to_euler b).2.1 ∧
    (mapillary_to_euler (b + 360)).2.2 = (mapillary_to_euler b).2.2 - 2 * Real.pi ∧
    Real.cos (mapillary_to_euler (b + 360)).2.2 =
      Real.cos (mapillary_to_euler b).2.2 ∧
    Real.sin (mapillary_to_euler (b + 360)).2.2 =
      Real.sin (mapillary_to_euler b).2.2 := by
  have hrz : (mapillary_to_euler (b + 360)).2.2 =
      (mapillary_to_euler b).2.2 - 2 * Real.pi := by
    simp only [mapillary_to_euler, radians]
    ring
  refine ⟨rfl, rfl, hrz, ?_, ?_⟩
  · rw [hrz, Real.cos_sub_two_pi]
  · rw [hrz, Real.sin_sub_two_pi]

/-- Whether a file name contains a dot.  `pathlib`'s `glob("*.*")` compiles
the pattern through `fnmatch.translate`, so a name matches exactly when it
contains at least one dot. -/
def hasDot (s : String) : Bool := s.data.any (fun c => c == '.')

/-- Length of the run of non-dot characters at the end of a name (the
candidate extension without its dot). -/
def extLen (s : String) : Nat := (s.data.reverse.takeWhile (fun c => c != '.')).length

/-- `pathlib.PurePath.stem` on a single path component: the name with its
last suffix removed; a name has a suffix only when its last dot is neither
the first nor the last character. -/
def pathStem (s : String) : String :=
  if 0 < extLen s ∧ extLen s + 1 < s.data.length then
    ⟨s.data.take (s.data.length - extLen s - 1)⟩
  else s

/-- `pathlib.PurePath.suffix` on a single path component. -/
def pathSuffix (s : String) : String :=
  if 0 < extLen s ∧ extLen s + 1 < s.data.length then
    ⟨s.data.drop (s.data.length - extLen s - 1)⟩
  else ("")

/-- `pathlib.PurePath.with_stem` on the final component: keep the suffix,
replace the stem. -/
def withStem (s new : String) : String := new ++ pathSuffix s

/-- `pathlib.PurePath.with_suffix` on the final component: drop the old
suffix, append the new one. -/
def withSuffix (s suf : String) : String := pathStem s ++ suf

/-- One staging directory as `move_render_passes` sees it: its final path
component `name` (the layer name chosen by `create_nodes`) and the file
names currently inside, in directory-listing order. -/
structure SDir where
  name : String
  files : List String
  deriving DecidableEq

/-- `dir_.glob("*.*")` inside `move_render_passes`. -/
def glob_all (d : SDir) : List String := d.files.filter hasDot

/-- The target file name `output_dir.with_stem(f"{image_id}_{pass_name}").with_suffix(".jpg")`
built by `move_render_passes` (its final component; all targets live in
`output_dir`'s parent directory). -/
def targetName (image_id outName passName : String) : String :=
  withSuffix (withStem outName (image_id ++ "_" ++ passName)) ".jpg"

/-- The loop body of `move_render_passes`, one staging directory at a time.
State: the staging directories still to process, and the listing of the
output directory's parent.  Python exception semantics: on the first
failure the loop stops, but renames already performed persist.
`Path.rename` is modelled with Windows semantics (the repository's paths
are Windows paths): it raises `FileExistsError` when the target exists. -/
def movePassesGo (image_id outName : String) :
    List SDir → List String → List SDir × List String × Option PyErr
  | [], outFs => ([], outFs, none)
  | d :: rest, outFs =>
    match glob_all d with
    | [] => (d :: rest, outFs, some PyErr.indexError)
    | f :: _ =>
      let newName := targetName image_id outName (pathStem d.name)
      if newName ∈ outFs then (d :: rest, outFs, some PyErr.fileExistsError)
      else
        let r := movePassesGo image_id outName rest (outFs ++ [newName])
        (⟨d.name, d.files.erase f⟩ :: r.1, r.2)

/-- `move_render_passes(save_dirs, output_dir)` from `blender.py`:
`image_id = output_dir.stem`, then for each staging directory take
`list(dir_.glob("*.*"))[0]`, name the pass after the directory's stem and
rename the file to `output_dir.with_stem(f"{image_id}_{pass_name}").with_suffix(".jpg")`. -/
def move_render_passes (save_dirs : List SDir) (outName : String)
    (outFs : List String) : List SDir × List String × Option PyErr :=
  movePassesGo (pathStem outName) outName save_dirs outFs

/-- C1 counterexample: a staging directory holding two files does not make
`move_render_passes` fail; the first listed file is silently moved and the
second left behind, so there is no `AmbiguousArtifactError`. -/
theorem c1_counterexample :
    move_render_passes [⟨"Depth", ["a.jpg", "b.jpg"]⟩] "A" [] =
      ([⟨"Depth", ["b.jpg"]⟩], ["A_Depth.jpg"], none) := by decide

/-- C1 amended: for the staging directory at the head of the table,
`move_render_passes` raises a bare `IndexError` when no file matches
`*.*`, raises `Path.rename`'s `FileExistsError` when the target already
exists (Windows; on POSIX the rename would silently overwrite), and when
several files match it silently moves the first listed one with no error.
None of `MissingArtifactError`, `AmbiguousArtifactError`, `CollisionError`
exists in the code. -/
theorem c1_amended (d : SDir) (rest : List SDir) (outName : String)
    (outFs : List String) :
    (glob_all d = [] →
      move_render_passes (d :: rest) outName outFs =
        (d :: rest, outFs, some PyErr.indexError)) ∧
    (∀ f t, glob_all d = f :: t →
      targetName (pathStem outName) outName (pathStem d.name) ∈ outFs →
      move_render_passes (d :: rest) outName outFs =
        (d :: rest, outFs, some PyErr.fileExistsError)) ∧
    (∀ f t, glob_all d = f :: t →
      targetName (pathStem outName) outName (pathStem d.name) ∉ outFs →
      move_render_passes [d] outName outFs =
        ([⟨d.name, d.files.erase f⟩],
         outFs ++ [targetName (pathStem outName) outName (pathStem d.name)],
         none)) := by
  refine ⟨fun hg => ?_, fun f t hg hmem => ?_, fun f t hg hmem => ?_⟩
  · simp only [move_render_passes, movePassesGo, hg]
  · simp only [move_render_passes, movePassesGo, hg, if_pos hmem]
  · simp only [move_render_passes, movePassesGo, hg, if_neg hmem]

/-- C1 witness: the three behaviors of `c1_amended` at concrete inputs. -/
theorem c1_witness :
    move_render_passes [⟨"Depth", []⟩] "A" [] =
      ([⟨"Depth", []⟩], [], some PyErr.indexError) ∧
    move_render_passes [⟨"Depth", ["a.jpg"]⟩] "A" ["A_Depth.jpg"] =
      ([⟨"Depth", ["a.jpg"]⟩], ["A_Depth.jpg"], some PyErr.fileExistsError) ∧
    move_render_passes [⟨"Depth", ["a.jpg"]⟩] "A" [] =
      ([⟨"Depth", []⟩], ["A_Depth.jpg"], none) := by
  refine ⟨(c1_amended ⟨"Depth", []⟩ [] "A" []).1 (by decide),
          ?_, ?_⟩
  · exact (c1_amended ⟨"Depth", ["a.jpg"]⟩ [] "A" ["A_Depth.jpg"]).2.1
      "a.jpg" [] (by decide) (by decide)
  · exact ((c1_amended ⟨"Depth", ["a.jpg"]⟩ [] "A" []).2.2
      "a.jpg" [] (by decide) (by decide)).trans (by decide)

/-- C2 counterexample: with exactly one file `render0001.png` staged for
layer `Depth` and record id `A`, the reconciler produces `A_Depth.jpg` —
the original `.png` extension is replaced by `.jpg`, not preserved as the
claim states. -/
theorem c2_counterexample :
    move_render_passes [⟨"Depth", ["render0001.png"]⟩] "A" [] =
      ([⟨"Depth", []⟩], ["A_Depth.jpg"], none) ∧
    "A_Depth.png" ∉
      (move_render_passes [⟨"Depth", ["render0001.png"]⟩] "A" []).2.1 := by
  decide

/-- A `takeWhile` over a list all of whose elements satisfy the predicate
keeps the whole list. -/
theorem takeWhile_eq_self_of_all {p : Char → Bool} :
    ∀ l : List Char, (∀ c ∈ l, p c = true) → l.takeWhile p = l
  | [], _ => rfl
  | c :: cs, h => by
    simp only [List.takeWhile_cons, h c (by simp), if_true]
    rw [takeWhile_eq_self_of_all cs (fun x hx => h x (by simp [hx]))]

/-- A dotless name has its candidate extension spanning the whole name. -/
theorem extLen_of_no_dot (s : String) (h : hasDot s = false) :
    extLen s = s.data.length := by
  have hall : ∀ c ∈ s.data.reverse, (c != '.') = true := by
    intro c hc
    rw [List.mem_reverse] at hc
    simp only [hasDot, List.any_eq_true, not_exists] at h
    have : ¬(c == '.') = true := by
      intro hcontra
      rw [List.any_eq_false] at h
      exact absurd hcontra (by simpa using h c hc)
    simp [bne, this]
  unfold extLen
  rw [takeWhile_eq_self_of_all _ hall, List.length_reverse]

/-- `pathlib` stem of a dotless name is the name itself. -/
theorem pathStem_of_no_dot (s : String) (h : hasDot s = false) :
    pathStem s = s := by
  unfold pathStem
  rw [extLen_of_no_dot s h]
  have : ¬(0 < s.data.length ∧ s.data.length + 1 < s.data.length) := by omega
  rw [if_neg this]

/-- `pathlib` suffix of a dotless name is empty. -/
theorem pathSuffix_of_no_dot (s : String) (h : hasDot s = false) :
    pathSuffix s = "" := by
  unfold pathSuffix
  rw [extLen_of_no_dot s h]
  have : ¬(0 < s.data.length ∧ s.data.length + 1 < s.data.length) := by omega
  rw [if_neg this]

/-- Dot-freeness distributes over string append. -/
theorem hasDot_append (a b : String) :
    hasDot (a ++ b) = (hasDot a || hasDot b) := by
  simp [hasDot, String.data_append, List.any_append]

/-- When the record id, the output name and the layer name are dotless,
the reconciler's target name is literally `<id>_<layer>.jpg`. -/
theorem targetName_no_dot (outName passName : String)
    (h1 : hasDot outName = false) (h2 : hasDot passName = false) :
    targetName (pathStem outName) outName passName =
      outName ++ "_" ++ passName ++ ".jpg" := by
  have hid : pathStem outName = outName := pathStem_of_no_dot outName h1
  unfold targetName withStem withSuffix
  rw [hid, pathSuffix_of_no_dot outName h1]
  have hnd : hasDot (outName ++ "_" ++ passName ++ "") = false := by
    simp [hasDot_append, h1, h2]
    decide
  rw [show outName ++ "_" ++ passName ++ "" = outName ++ "_" ++ passName by simp] at hnd
  rw [show (outName ++ "_" ++ passName) ++ "" = outName ++ "_" ++ passName by simp]
  rw [pathStem_of_no_dot _ hnd]

/-- On the success path — every staging directory holds exactly one file,
that file matches `*.*`, and no target name collides with the output
listing or with another target — `movePassesGo` moves every file, leaves
every staging directory empty and appends the targets in input order. -/
theorem movePassesGo_all_single (image_id outName : String) :
    ∀ (dirs : List SDir) (outFs : List String),
      (∀ d ∈ dirs, ∃ f, d.files = [f] ∧ hasDot f = true) →
      (dirs.map (fun d => targetName image_id outName (pathStem d.name))).Nodup →
      (∀ t ∈ dirs.map (fun d => targetName image_id outName (pathStem d.name)),
        t ∉ outFs) →
      movePassesGo image_id outName dirs outFs =
        (dirs.map (fun d => ⟨d.name, []⟩),
         outFs ++ dirs.map (fun d => targetName image_id outName (pathStem d.name)),
         none)
  | [], outFs, _, _, _ => by simp [movePassesGo]
  | d :: rest, outFs, h1, h2, h3 => by
    obtain ⟨f, hf, hdot⟩ := h1 d (by simp)
    have hglob : glob_all d = [f] := by
      simp [glob_all, hf, List.filter, hdot]
    have hmem : targetName image_id outName (pathStem d.name) ∉ outFs :=
      h3 _ (by simp)
    have hrec := movePassesGo_all_single image_id outName rest
      (outFs ++ [targetName image_id outName (pathStem d.name)])
      (fun x hx => h1 x (by simp [hx]))
      (by simpa using h2.of_cons)
      (by
        intro t ht
        simp only [List.mem_append, List.mem_singleton, not_or]
        refine ⟨h3 t (by simp [ht]), ?_⟩
        intro hEq
        have hhead : targetName image_id outName (pathStem d.name) ∉
            rest.map (fun x => targetName image_id outName (pathStem x.name)) :=
          (List.nodup_cons.mp h2).1
        exact hhead (hEq ▸ ht))
    simp only [movePassesGo, hglob, if_neg hmem, hrec, hf]
    simp [List.append_assoc]

/-- C2 amended: when every staging directory holds exactly one file and
that file has an extension (matches `*.*`), and no target collides,
`move_render_passes` moves each file to
`output_dir/<record_id>_<layer_name>.jpg` — the extension is always
forced to `.jpg` by `with_suffix(".jpg")`, never preserved — and leaves
every staging directory empty afterwards; with dotless record id and layer
names the target name is literally `<id>_<layer>.jpg`. -/
theorem c2_amended (dirs : List SDir) (outName : String) (outFs : List String)
    (h1 : ∀ d ∈ dirs, ∃ f, d.files = [f] ∧ hasDot f = true)
    (h2 : (dirs.map (fun d =>
      targetName (pathStem outName) outName (pathStem d.name))).Nodup)
    (h3 : ∀ t ∈ dirs.map (fun d =>
      targetName (pathStem outName) outName (pathStem d.name)), t ∉ outFs) :
    move_render_passes dirs outName outFs =
      (dirs.map (fun d => ⟨d.name, []⟩),
       outFs ++ dirs.map (fun d =>
         targetName (pathStem outName) outName (pathStem d.name)),
       none) ∧
    (hasDot outName = false → ∀ d ∈ dirs, hasDot d.name = false →
      targetName (pathStem outName) outName (pathStem d.name) =
        outName ++ "_" ++ d.name ++ ".jpg") := by
  refine ⟨movePassesGo_all_single (pathStem outName) outName dirs outFs h1 h2 h3,
    fun ho d _ hd => ?_⟩
  rw [pathStem_of_no_dot d.name hd]
  exact targetName_no_dot outName d.name ho hd

/-- C2 witness: two staged layers `Depth` (a `.png`) and `Normal` (an
`.exr`) for record `A` drain into `A_Depth.jpg` and `A_Normal.jpg`. -/
theorem c2_witness :
    move_render_passes [⟨"Depth", ["x.png"]⟩, ⟨"Normal", ["y.exr"]⟩] "A" [] =
      ([⟨"Depth", []⟩, ⟨"Normal", []⟩], ["A_Depth.jpg", "A_Normal.jpg"], none) ∧
    targetName (pathStem ("A")) "A" (pathStem ("Depth" : String)) =
      "A" ++ "_" ++ "Depth" ++ ".jpg" := by
  have h := c2_amended [⟨"Depth", ["x.png"]⟩, ⟨"Normal", ["y.exr"]⟩] "A" []
    (by
      intro d hd
      simp only [List.mem_cons, List.not_mem_nil, or_false] at hd
      rcases hd with rfl | rfl
      · exact ⟨"x.png", rfl, by decide⟩
      · exact ⟨"y.exr", rfl, by decide⟩)
    (by decide) (by decide)
  refine ⟨h.1.trans (by decide), ?_⟩
  exact h.2 (by decide) ⟨"Depth", ["x.png"]⟩ (by simp) (by decide)

/-- Files already present in the output listing stay there through the
rest of a `movePassesGo` run, whether or not a later directory fails. -/
theorem movePassesGo_fs_mono (image_id outName : String) :
    ∀ (dirs : List SDir) (outFs : List String) (x : String),
      x ∈ outFs → x ∈ (movePassesGo image_id outName dirs outFs).2.1
  | [], _, _, hx => hx
  | d :: rest, outFs, x, hx => by
    cases hglob : glob_all d with
    | nil => simpa [movePassesGo, hglob] using hx
    | cons f t =>
      simp only [movePassesGo, hglob]
      by_cases hmem : targetName image_id outName (pathStem d.name) ∈ outFs
      · simpa [if_pos hmem] using hx
      · rw [if_neg hmem]
        exact movePassesGo_fs_mono image_id outName rest
          (outFs ++ [targetName image_id outName (pathStem d.name)]) x
          (by simp [hx])

/-- C8 counterexample: with layer `Depth` staged but layer `Normal`'s
staging directory empty, the run fails with a bare `IndexError` while
`A_Depth.jpg` has already been written — the output directory is left in
a some-layers-only state, and the error carries no record id. -/
theorem c8_counterexample :
    move_render_passes [⟨"Depth", ["d.jpg"]⟩, ⟨"Normal", []⟩] "A" [] =
      ([⟨"Depth", []⟩, ⟨"Normal", []⟩], ["A_Depth.jpg"], some PyErr.indexError) ∧
    "A_Depth.jpg" ∈
      (move_render_passes [⟨"Depth", ["d.jpg"]⟩, ⟨"Normal", []⟩] "A" []).2.1 ∧
    "A_Normal.jpg" ∉
      (move_render_passes [⟨"Depth", ["d.jpg"]⟩, ⟨"Normal", []⟩] "A" []).2.1 ∧
    (move_render_passes [⟨"Depth", ["d.jpg"]⟩, ⟨"Normal", []⟩] "A" []).2.2 ≠
      none := by
  decide

/-- C8 amended: reconciliation is not atomic.  Once the first staging
directory is drained successfully, its target file stays in the output
listing no matter what happens to the remaining directories, whose outcome
alone determines the raised error; a failure on a later layer therefore
leaves a some-layers-only state, and the error value (a bare `IndexError`
or `FileExistsError`) carries no record id. -/
theorem c8_amended (d : SDir) (rest : List SDir) (outName : String)
    (outFs : List String) (f : String) (t : List String)
    (hg : glob_all d = f :: t)
    (hfresh : targetName (pathStem outName) outName (pathStem d.name) ∉ outFs) :
    targetName (pathStem outName) outName (pathStem d.name) ∈
      (move_render_passes (d :: rest) outName outFs).2.1 ∧
    (move_render_passes (d :: rest) outName outFs).2.2 =
      (movePassesGo (pathStem outName) outName rest
        (outFs ++ [targetName (pathStem outName) outName (pathStem d.name)])).2.2 := by
  constructor
  · simp only [move_render_passes, movePassesGo, hg, if_neg hfresh]
    exact movePassesGo_fs_mono (pathStem outName) outName rest _ _ (by simp)
  · simp only [move_render_passes, movePassesGo, hg, if_neg hfresh]

/-- C8 witness: `c8_amended` at the concrete partial-failure run. -/
theorem c8_witness :
    targetName (pathStem ("A")) "A" (pathStem ("Depth" : String)) ∈
      (move_render_passes [⟨"Depth", ["d.jpg"]⟩, ⟨"Normal", []⟩] "A" []).2.1 ∧
    (move_render_passes [⟨"Depth", ["d.jpg"]⟩, ⟨"Normal", []⟩] "A" []).2.2 =
      (movePassesGo (pathStem ("A")) "A" [⟨"Normal", []⟩]
        ([] ++ [targetName (pathStem ("A")) "A" (pathStem ("Depth" : String))])).2.2 :=
  c8_amended ⟨"Depth", ["d.jpg"]⟩ [⟨"Normal", []⟩] "A" [] "d.jpg" []
    (by decide) (by decide)

/-- One Blender compositor node as `create_nodes` builds it: Python type
string, `name`, `location`, and `base_path` for file-output nodes. -/
structure CNode where
  ntype : String
  name : String
  location : ℤ × ℤ
  base_path : Option String
  deriving DecidableEq

/-- The compositor node tree: nodes in insertion order, and links as pairs
of (render-layer output name, sink node name). -/
structure NodeTree where
  nodes : List CNode
  links : List (String × String)
  deriving DecidableEq

/-- The Blender-side state `create_nodes` can touch: the scene's node
tree, the set of output socket names available on a `RenderLayers` node
(determined by the view layer's enabled passes, fixed scene state from
this function's point of view), and the filesystem, as the list of
directories that exist on disk. -/
structure BState where
  tree : NodeTree
  rlOutputs : List String
  fs : List String
  deriving DecidableEq

/-- `tmp_dir / render_pass_name`: path join. -/
def pjoin (a b : String) : String := a ++ "/" ++ b

/-- The `CompositorNodeRLayers` node named `RenderLayers` at `(0, 0)`. -/
def rlNode : CNode := ⟨"CompositorNodeRLayers", "RenderLayers", (0, 0), none⟩

/-- The `CompositorNodeOutputFile` node for the `i`-th requested pass:
named after the pass, placed at `(400, -120*i)`, with
`base_path = str(tmp_dir / render_pass_name)`. -/
def outputNode (tmp_dir : String) (i : ℕ) (n : String) : CNode :=
  ⟨"CompositorNodeOutputFile", n, (400, -(120 * (i : ℤ))), some (pjoin tmp_dir n)⟩

/-- The `for i, render_pass_name in enumerate(render_pass_names)` loop of
`create_nodes`.  Each iteration first creates and configures the
file-output node, then subscripts `renderlayers_node.outputs[render_pass_name]`,
which raises `KeyError` when the pass is not an available output of the
`RenderLayers` node; the exception propagates (nothing is returned), but
nodes already added — including the just-created file-output node —
persist in the tree. -/
def createNodesGo (tmp_dir : String) (rlOutputs : List String) :
    Nat → List String → NodeTree → NodeTree × Except PyErr (List String)
  | _, [], tree => (tree, Except.ok [])
  | i, n :: rest, tree =>
    let tree1 : NodeTree := ⟨tree.nodes ++ [outputNode tmp_dir i n], tree.links⟩
    if n ∈ rlOutputs then
      let tree2 : NodeTree := ⟨tree1.nodes, tree1.links ++ [(n, n)]⟩
      let r := createNodesGo tmp_dir rlOutputs (i + 1) rest tree2
      (r.1, r.2.map (fun ds => pjoin tmp_dir n :: ds))
    else
      (tree1, Except.error PyErr.keyError)

/-- `create_nodes(tmp_dir, render_pass_names)` from `blender.py`: removes
every node from the tree, adds the `RenderLayers` node, then runs the loop
adding one file-output node per requested pass linked from the
render-layer output of the same name, and returns `save_dirs` (or lets a
`KeyError` from an unavailable pass propagate).  Every statement in the
Python body is a `bpy` node-tree operation; the function performs no
filesystem call, so the on-disk state passes through unchanged. -/
def create_nodes (tmp_dir : String) (render_pass_names : List String)
    (s : BState) : BState × Except PyErr (List String) :=
  let r := createNodesGo tmp_dir s.rlOutputs 0 render_pass_names ⟨[rlNode], []⟩
  (⟨r.1, s.rlOutputs, s.fs⟩, r.2)

/-- When every requested pass is an available `RenderLayers` output, the
loop succeeds: it appends one file-output node and one link per pass and
returns the staging paths in input order. -/
theorem createNodesGo_ok (tmp_dir : String) (rl : List String) :
    ∀ (i : Nat) (names : List String) (tree : NodeTree),
      (∀ n ∈ names, n ∈ rl) →
      createNodesGo tmp_dir rl i names tree =
        (⟨tree.nodes ++ (names.enumFrom i).map (fun p => outputNode tmp_dir p.1 p.2),
          tree.links ++ names.map (fun n => (n, n))⟩,
         Except.ok (names.map (pjoin tmp_dir)))
  | _, [], tree, _ => by simp [createNodesGo]
  | i, n :: rest, tree, h => by
    have hn : n ∈ rl := h n (by simp)
    have hrec := createNodesGo_ok tmp_dir rl (i + 1) rest
      ⟨tree.nodes ++ [outputNode tmp_dir i n], tree.links ++ [(n, n)]⟩
      (fun m hm => h m (by simp [hm]))
    simp only [createNodesGo, if_pos hn, hrec, Except.map]
    simp [List.enumFrom, List.append_assoc]

/-- When some requested pass is not an available `RenderLayers` output,
the first such pass makes the loop raise `KeyError`. -/
theorem createNodesGo_err (tmp_dir : String) (rl : List String) :
    ∀ (i : Nat) (pre : List String) (n : String) (post : List String)
      (tree : NodeTree),
      (∀ m ∈ pre, m ∈ rl) → n ∉ rl →
      (createNodesGo tmp_dir rl i (pre ++ n :: post) tree).2 =
        Except.error PyErr.keyError
  | i, [], n, post, tree, _, hn => by
    simp [createNodesGo, if_neg hn]
  | i, m :: pre, n, post, tree, h, hn => by
    have hm : m ∈ rl := h m (by simp)
    have hrec := createNodesGo_err tmp_dir rl (i + 1) pre n post
      ⟨tree.nodes ++ [outputNode tmp_dir i m], tree.links ++ [(m, m)]⟩
      (fun x hx => h x (by simp [hx])) hn
    rw [List.cons_append]
    simp only [createNodesGo, if_pos hm]
    rw [hrec]
    rfl

/-- C7 counterexample: with `Depth` an available `RenderLayers` output,
`create_nodes` returns the staging path `tmp/Depth`, but creates no
directory — starting from an empty disk, the returned path does not exist
afterwards, so it is not "an existing, empty directory". -/
theorem c7_counterexample :
    (create_nodes ("tmp") ["Depth"] ⟨⟨[rlNode], []⟩, ["Depth"], []⟩).2 =
      Except.ok ["tmp/Depth"] ∧
    ((create_nodes ("tmp") ["Depth"] ⟨⟨[rlNode], []⟩, ["Depth"], []⟩).1).fs = [] ∧
    "tmp/Depth" ∉
      ((create_nodes ("tmp") ["Depth"] ⟨⟨[rlNode], []⟩, ["Depth"], []⟩).1).fs := by
  refine ⟨rfl, rfl, ?_⟩
  simp [create_nodes, createNodesGo]

/-- C7 amended: `create_nodes` discards every pre-existing node (its
result does not depend on the previous tree).  When every requested layer
name is an available output of the `RenderLayers` source node, it builds
that source node plus one file-output sink per layer bound to
`staging_root/<layer_name>`, linked from the output of the same name, and
returns exactly one staging path per layer in input order; when some
requested layer is not an available output, the subscript
`renderlayers_node.outputs[name]` raises `KeyError` at the first such
layer (not the spec's `UnknownLayerError`) and nothing is returned.  In
all cases it performs no filesystem operation, so the returned paths are
not created as directories (the render host creates them at render
time). -/
theorem c7_amended (tmp_dir : String) (names : List String) (s1 s2 : BState)
    (hout : s1.rlOutputs = s2.rlOutputs) (hfs : s1.fs = s2.fs) :
    ((∀ n ∈ names, n ∈ s1.rlOutputs) →
      (create_nodes tmp_dir names s1).2 =
        Except.ok (names.map (pjoin tmp_dir)) ∧
      ((create_nodes tmp_dir names s1).1).tree.nodes =
        rlNode :: (names.enumFrom 0).map (fun p => outputNode tmp_dir p.1 p.2) ∧
      ((create_nodes tmp_dir names s1).1).tree.links =
        names.map (fun n => (n, n))) ∧
    (∀ pre n post, names = pre ++ n :: post →
      (∀ m ∈ pre, m ∈ s1.rlOutputs) → n ∉ s1.rlOutputs →
      (create_nodes tmp_dir names s1).2 = Except.error PyErr.keyError) ∧
    ((create_nodes tmp_dir names s1).1).fs = s1.fs ∧
    create_nodes tmp_dir names s1 = create_nodes tmp_dir names s2 := by
  refine ⟨fun hav => ?_, fun pre n post hsplit hpre hn => ?_, rfl, ?_⟩
  · have h := createNodesGo_ok tmp_dir s1.rlOutputs 0 names ⟨[rlNode], []⟩ hav
    simp [create_nodes, h]
  · have h := createNodesGo_err tmp_dir s1.rlOutputs 0 pre n post
      ⟨[rlNode], []⟩ hpre hn
    simp only [create_nodes, hsplit, h]
  · simp only [create_nodes, hout, hfs]

/-- C7 witness: `c7_amended` at concrete calls — a successful build with
two different pre-existing node trees over the same scene state, and a
`KeyError` run where the second requested layer is not an available
output. -/
theorem c7_witness :
    (create_nodes ("tmp") ["Depth", "Normal"]
      ⟨⟨[rlNode], []⟩, ["Depth", "Normal", "Image"], ["pre"]⟩).2 =
      Except.ok (["Depth", "Normal"].map (pjoin ("tmp"))) ∧
    create_nodes ("tmp") ["Depth", "Normal"]
        ⟨⟨[rlNode], []⟩, ["Depth", "Normal", "Image"], ["pre"]⟩ =
      create_nodes ("tmp") ["Depth", "Normal"]
        ⟨⟨[], [("x", "y")]⟩, ["Depth", "Normal", "Image"], ["pre"]⟩ ∧
    (create_nodes ("tmp") ["Depth", "Bogus"]
      ⟨⟨[rlNode], []⟩, ["Depth", "Normal", "Image"], []⟩).2 =
      Except.error PyErr.keyError := by
  have h1 := c7_amended ("tmp") ["Depth", "Normal"]
    ⟨⟨[rlNode], []⟩, ["Depth", "Normal", "Image"], ["pre"]⟩
    ⟨⟨[], [("x", "y")]⟩, ["Depth", "Normal", "Image"], ["pre"]⟩ rfl rfl
  have h2 := c7_amended ("tmp") ["Depth", "Bogus"]
    ⟨⟨[rlNode], []⟩, ["Depth", "Normal", "Image"], []⟩
    ⟨⟨[rlNode], []⟩, ["Depth", "Normal", "Image"], []⟩ rfl rfl
  exact ⟨(h1.1 (by decide)).1, h1.2.2.2,
    h2.2.1 ["Depth"] ("Bogus") [] rfl (by decide) (by decide)⟩

/-- The `TransverseMercator` projection state: `__init__` stores
`radians(lat)`, `radians(lon)` and `scale`. -/
structure TransverseMercator where
  lat : ℝ
  lon : ℝ
  scale : ℝ

/-- The spherical Earth radius constant of the class, 6 378 137 m. -/
def TransverseMercator.radius : ℝ := 6378137

/-- `TransverseMercator.__init__(lat, lon, scale)`. -/
noncomputable def TransverseMercator.init (lat lon scale : ℝ) : TransverseMercator :=
  ⟨radians lat, radians lon, scale⟩

open Classical in
/-- `TransverseMercator.from_geographic(lat, lon)` with Python's runtime
failure semantics over the reals: float division by a zero denominator
raises `ZeroDivisionError`, and `math.log` of a non-positive argument
raises `ValueError` (math domain error); `x` is computed before `y`, as in
the source. -/
noncomputable def TransverseMercator.from_geographic (self : TransverseMercator)
    (lat lon : ℝ) : Except PyErr (ℝ × ℝ) :=
  let latR := radians lat
  let lonR := radians lon - self.lon
  let B := Real.sin lonR * Real.cos latR
  if 1 - B = 0 then Except.error PyErr.zeroDivisionError
  else if (1 + B) / (1 - B) ≤ 0 then Except.error PyErr.valueError
  else if Real.cos lonR = 0 then Except.error PyErr.zeroDivisionError
  else
    Except.ok (0.5 * self.scale * TransverseMercator.radius *
        Real.log ((1 + B) / (1 - B)),
      self.scale * TransverseMercator.radius *
        (Real.arctan (Real.tan latR / Real.cos lonR) - self.lat))

/-- C3: for `|Δlon| < 90°` (and a geographically valid origin latitude,
`|lat0| < 90°`), the projection stays inside the domain of its formula —
`|B| < 1` so the logarithm's argument is positive, and `cos Δlon > 0` —
and returns exactly the pair
`(0.5·scale·R·ln((1+B)/(1−B)), scale·R·(atan(tan lat / cos Δlon) − lat0))`;
at `lat = lat0, lon = lon0` the result is exactly `(0, 0)`. -/
theorem c3_from_geographic (lat0 lon0 scale lat lon : ℝ)
    (hd : |radians lon - radians lon0| < Real.pi / 2)
    (h0 : |radians lat0| < Real.pi / 2) :
    (0 < 1 - Real.sin (radians lon - radians lon0) * Real.cos (radians lat) ∧
     0 < 1 + Real.sin (radians lon - radians lon0) * Real.cos (radians lat) ∧
     0 < Real.cos (radians lon - radians lon0)) ∧
    (TransverseMercator.init lat0 lon0 scale).from_geographic lat lon =
      Except.ok
        (0.5 * scale * TransverseMercator.radius *
           Real.log
             ((1 + Real.sin (radians lon - radians lon0) * Real.cos (radians lat)) /
              (1 - Real.sin (radians lon - radians lon0) * Real.cos (radians lat))),
         scale * TransverseMercator.radius *
           (Real.arctan
              (Real.tan (radians lat) / Real.cos (radians lon - radians lon0)) -
            radians lat0)) ∧
    (TransverseMercator.init lat0 lon0 scale).from_geographic lat0 lon0 =
      Except.ok (0, 0) := by
  obtain ⟨hd1, hd2⟩ := abs_lt.mp hd
  have hcos : 0 < Real.cos (radians lon - radians lon0) :=
    Real.cos_pos_of_mem_Ioo ⟨hd1, hd2⟩
  have hsin2 : Real.sin (radians lon - radians lon0) ^ 2 < 1 := by
    have hc2 : 0 < Real.cos (radians lon - radians lon0) ^ 2 := by positivity
    nlinarith [Real.sin_sq_add_cos_sq (radians lon - radians lon0)]
  have habs : |Real.sin (radians lon - radians lon0)| < 1 := by
    nlinarith [sq_abs (Real.sin (radians lon - radians lon0)),
      abs_nonneg (Real.sin (radians lon - radians lon0))]
  have hB : |Real.sin (radians lon - radians lon0) * Real.cos (radians lat)| < 1 := by
    calc |Real.sin (radians lon - radians lon0) * Real.cos (radians lat)|
        = |Real.sin (radians lon - radians lon0)| * |Real.cos (radians lat)| :=
          abs_mul _ _
      _ ≤ |Real.sin (radians lon - radians lon0)| * 1 :=
          mul_le_mul_of_nonneg_left (Real.abs_cos_le_one _) (abs_nonneg _)
      _ < 1 := by rw [mul_one]; exact habs
  obtain ⟨hB1, hB2⟩ := abs_lt.mp hB
  have hBm : 0 < 1 - Real.sin (radians lon - radians lon0) * Real.cos (radians lat) := by
    linarith
  have hBp : 0 < 1 + Real.sin (radians lon - radians lon0) * Real.cos (radians lat) := by
    linarith
  have hratio : 0 <
      (1 + Real.sin (radians lon - radians lon0) * Real.cos (radians lat)) /
      (1 - Real.sin (radians lon - radians lon0) * Real.cos (radians lat)) :=
    div_pos hBp hBm
  refine ⟨⟨hBm, hBp, hcos⟩, ?_, ?_⟩
  · simp only [TransverseMercator.from_geographic, TransverseMercator.init]
    rw [if_neg (ne_of_gt hBm), if_neg (not_le.mpr hratio), if_neg (ne_of_gt hcos)]
  · obtain ⟨h01, h02⟩ := abs_lt.mp h0
    simp only [TransverseMercator.from_geographic, TransverseMercator.init,
      sub_self, Real.sin_zero, Real.cos_zero, zero_mul, sub_zero]
    norm_num
    rw [Real.arctan_tan h01 h02]
    norm_num

/-- C3 witness: the projection with origin `(0, 0)` and scale `1`,
evaluated at its own origin, is in-domain and returns exactly `(0, 0)`. -/
theorem c3_witness :
    |radians 0 - radians 0| < Real.pi / 2 ∧
    |radians (0 : ℝ)| < Real.pi / 2 ∧
    (TransverseMercator.init 0 0 1).from_geographic 0 0 = Except.ok (0, 0) := by
  have hd : |radians (0 : ℝ) - radians 0| < Real.pi / 2 := by
    simp only [radians, zero_mul, sub_self, abs_zero]
    positivity
  have h0 : |radians (0 : ℝ)| < Real.pi / 2 := by
    simp only [radians, zero_mul, abs_zero]
    positivity
  exact ⟨hd, h0, (c3_from_geographic 0 0 1 0 0 hd h0).2.2⟩

/-- C4 counterexample: at `Δlon = 90°` (origin `(0, 0)`, input
`lat = 0, lon = 90`) the singular projection raises Python's
`ZeroDivisionError` from `(1 + B) / (1 - B)` — there is no `DomainError`
anywhere in the code. -/
theorem c4_counterexample :
    (TransverseMercator.init 0 0 1).from_geographic 0 90 =
      Except.error PyErr.zeroDivisionError := by
  have h1 : radians (90 : ℝ) = Real.pi / 2 := by
    simp only [radians]; ring
  have h2 : radians (0 : ℝ) = 0 := by simp [radians]
  simp [TransverseMercator.from_geographic, TransverseMercator.init, h1, h2]

/-- C4 amended: at every projection singularity — `B = ±1` or
`cos Δlon = 0` — `from_geographic` raises an unhandled Python exception
(`ZeroDivisionError` for `B = 1` or `cos Δlon = 0`, `ValueError` from
`math.log(0)` for `B = -1`) and never returns a value, so no `±inf` or
`NaN` is produced; but the failure is not a `DomainError`, which the code
does not define. -/
theorem c4_amended (P : TransverseMercator) (lat lon : ℝ)
    (h : Real.sin (radians lon - P.lon) * Real.cos (radians lat) = 1 ∨
         Real.sin (radians lon - P.lon) * Real.cos (radians lat) = -1 ∨
         Real.cos (radians lon - P.lon) = 0) :
    ∃ e, P.from_geographic lat lon = Except.error e := by
  by_cases h1 : 1 - Real.sin (radians lon - P.lon) * Real.cos (radians lat) = 0
  · exact ⟨PyErr.zeroDivisionError, by
      simp only [TransverseMercator.from_geographic, if_pos h1]⟩
  · rcases h with hB | hB | hc
    · exact absurd (by rw [hB]; ring) h1
    · have hr : (1 + Real.sin (radians lon - P.lon) * Real.cos (radians lat)) /
          (1 - Real.sin (radians lon - P.lon) * Real.cos (radians lat)) ≤ 0 := by
        rw [hB]; norm_num
      exact ⟨PyErr.valueError, by
        simp only [TransverseMercator.from_geographic, if_neg h1, if_pos hr]⟩
    · by_cases h2 : (1 + Real.sin (radians lon - P.lon) * Real.cos (radians lat)) /
          (1 - Real.sin (radians lon - P.lon) * Real.cos (radians lat)) ≤ 0
      · exact ⟨PyErr.valueError, by
          simp only [TransverseMercator.from_geographic, if_neg h1, if_pos h2]⟩
      · exact ⟨PyErr.zeroDivisionError, by
          simp only [TransverseMercator.from_geographic, if_neg h1, if_neg h2,
            if_pos hc]⟩

/-- C4 witness: `c4_amended` at the concrete singular input
`lat = 0, lon = 90` over the origin `(0, 0)`, where `B = 1`. -/
theorem c4_witness :
    Real.sin (radians 90 - (TransverseMercator.init 0 0 1).lon) *
      Real.cos (radians 0) = 1 ∧
    ∃ e, (TransverseMercator.init 0 0 1).from_geographic 0 90 =
      Except.error e := by
  have hcond : Real.sin (radians 90 - (TransverseMercator.init 0 0 1).lon) *
      Real.cos (radians (0 : ℝ)) = 1 := by
    have h1 : radians (90 : ℝ) - (TransverseMercator.init 0 0 1).lon =
        Real.pi / 2 := by
      simp only [TransverseMercator.init, radians]; ring
    rw [h1, Real.sin_pi_div_two]
    simp [radians]
  exact ⟨hcond, c4_amended _ 0 90 (Or.inl hcond)⟩

/-- Array element dtypes relevant to `remap.py`. -/
inductive DType
  | float32
  | float64
  | uint8
  deriving DecidableEq

namespace remap

/-- A torch tensor / numpy array as `toNumpy.__call__` sees it: shape,
dtype, and element lookup by multi-index (junk outside the shape).
`detach()` and `cpu()` do not change any of these. -/
structure Tensor where
  shape : List Nat
  dtype : DType
  val : List Nat → ℝ

/-- `toNumpy.__call__(imgs)` from `remap.py`: permutes a rank-3 tensor by
`(1, 2, 0)` and a rank-4 tensor by `(0, 2, 3, 1)`, then converts to a
`float32` numpy array.  For any other rank neither branch assigns
`imgs_norm`, so the following `imgs_norm.numpy()` raises
`UnboundLocalError`. -/
def toNumpyCall (imgs : Tensor) : Except PyErr Tensor :=
  if imgs.shape.length = 3 then
    Except.ok ⟨[imgs.shape.getD 1 0, imgs.shape.getD 2 0, imgs.shape.getD 0 0],
      DType.float32,
      fun l => imgs.val [l.getD 2 0, l.getD 0 0, l.getD 1 0]⟩
  else if imgs.shape.length = 4 then
    Except.ok ⟨[imgs.shape.getD 0 0, imgs.shape.getD 2 0, imgs.shape.getD 3 0,
        imgs.shape.getD 1 0],
      DType.float32,
      fun l => imgs.val [l.getD 0 0, l.getD 3 0, l.getD 1 0, l.getD 2 0]⟩
  else Except.error PyErr.unboundLocalError

end remap

/-- C10: `toNumpy.__call__` fails with `UnboundLocalError` on every tensor
whose rank is neither 3 nor 4; under the rank ∈ {3, 4} precondition that
branch is unreachable and the call returns a `float32` array with the
channel axis moved last (`(c, h, w) ↦ (h, w, c)` for rank 3,
`(n, c, h, w) ↦ (n, h, w, c)` for rank 4). -/
theorem c10_toNumpy (t : remap.Tensor) :
    (t.shape.length ≠ 3 → t.shape.length ≠ 4 →
      remap.toNumpyCall t = Except.error PyErr.unboundLocalError) ∧
    (t.shape.length = 3 → ∃ u, remap.toNumpyCall t = Except.ok u ∧
      u.dtype = DType.float32 ∧
      u.shape = [t.shape.getD 1 0, t.shape.getD 2 0, t.shape.getD 0 0]) ∧
    (t.shape.length = 4 → ∃ u, remap.toNumpyCall t = Except.ok u ∧
      u.dtype = DType.float32 ∧
      u.shape = [t.shape.getD 0 0, t.shape.getD 2 0, t.shape.getD 3 0,
        t.shape.getD 1 0]) := by
  refine ⟨fun h3 h4 => ?_, fun h3 => ?_, fun h4 => ?_⟩
  · simp only [remap.toNumpyCall, if_neg h3, if_neg h4]
  · refine ⟨⟨[t.shape.getD 1 0, t.shape.getD 2 0, t.shape.getD 0 0],
      DType.float32, fun l => t.val [l.getD 2 0, l.getD 0 0, l.getD 1 0]⟩,
      ?_, rfl, rfl⟩
    simp only [remap.toNumpyCall, if_pos h3]
  · have h3 : t.shape.length ≠ 3 := by omega
    refine ⟨⟨[t.shape.getD 0 0, t.shape.getD 2 0, t.shape.getD 3 0,
        t.shape.getD 1 0],
      DType.float32, fun l => t.val [l.getD 0 0, l.getD 3 0, l.getD 1 0,
        l.getD 2 0]⟩, ?_, rfl, rfl⟩
    simp only [remap.toNumpyCall, if_neg h3, if_pos h4]

/-- C10 witness: a rank-1 tensor makes the call fail with
`UnboundLocalError`; a rank-3 tensor of shape `(3, 4, 5)` yields a
`float32` result of shape `(4, 5, 3)`. -/
theorem c10_witness :
    remap.toNumpyCall ⟨[5], DType.uint8, fun _ => 0⟩ =
      Except.error PyErr.unboundLocalError ∧
    (∃ u, remap.toNumpyCall ⟨[3, 4, 5], DType.uint8, fun _ => 0⟩ =
      Except.ok u ∧ u.dtype = DType.float32 ∧ u.shape = [4, 5, 3]) := by
  refine ⟨(c10_toNumpy ⟨[5], DType.uint8, fun _ => 0⟩).1 (by decide) (by decide), ?_⟩
  obtain ⟨u, h1, h2, h3⟩ :=
    (c10_toNumpy ⟨[3, 4, 5], DType.uint8, fun _ => 0⟩).2.1 (by decide)
  exact ⟨u, h1, h2, h3.trans (by decide)⟩
